import Mathlib

/-
Verification development for the PowerWorldCUA backend.

Shallow embedding of:
  * backend/app/api/anthropic_processor.py   (extraction pipeline, 4 variants)
  * backend/app/api/bus_service.py           (BusAPIService)
  * backend/app/api/contingency_service.py   (ContingencyAPIService)
  * backend/app/websocket/handler.py         (WebSocketHandler)
  * backend/app/websocket/manager.py         (ConnectionManager)

External collaborators (Python's json.loads, the Anthropic HTTP call, the
CUA automation engine, the filesystem) are modelled as explicit inputs,
matching how the spec treats them as opaque interfaces.  Python exceptions
are modelled with Except; Python control flow (try/except/finally,
ordered if/elif chains) is mirrored by explicit matches.
-/

namespace PWCUA

/-- JSON values as produced by Python's json.loads.  Numbers are abstracted
to Int (the claims under study never depend on numeric representation). -/
inductive Json where
  | null : Json
  | bool : Bool → Json
  | num : Int → Json
  | str : String → Json
  | arr : List Json → Json
  | obj : List (String × Json) → Json

/-- Whether a JSON value is a Python dict (a JSON object). -/
def Json.isObj : Json → Bool
  | .obj _ => true
  | _ => false

/-- Python exceptions that can be raised by the pieces of stdlib the
extraction code touches. -/
inductive PyExn where
  | jsonDecode : String → PyExn
  | attrError : String → PyExn
  | typeError : String → PyExn

/-- The str(e) of a modelled Python exception. -/
def PyExn.msg : PyExn → String
  | .jsonDecode m => m
  | .attrError m => m
  | .typeError m => m

/-- Python dict.get(key, default): raises AttributeError when the receiver
is not a dict. -/
def pyDictGet (v : Json) (key : String) (dflt : Json) : Except PyExn Json :=
  match v with
  | .obj kvs => .ok ((kvs.lookup key).getD dflt)
  | _ => .error (.attrError "object has no attribute get")

/-- Python len(): defined on lists, strings and dicts, TypeError otherwise. -/
def pyLen : Json → Except PyExn Nat
  | .arr xs => .ok xs.length
  | .str s => .ok s.length
  | .obj kvs => .ok kvs.length
  | _ => .error (.typeError "object has no len")

/-!  A small backtracking regex engine, modelling Python re.search for the
four concrete patterns used by anthropic_processor.py.  All quantifiers in
those patterns range over single-character classes, and each pattern needs
only one capture group, which keeps the engine small while preserving
Python's leftmost, greedy/lazy backtracking semantics (DOTALL is always on
in the source, so the any-character class includes newlines). -/

/-- Regex abstract syntax: literals, single-char classes, sequencing, a
greedy option, greedy and lazy stars over a char class, one capture group. -/
inductive Re where
  | lit : List Char → Re
  | seq : Re → Re → Re
  | opt : Re → Re
  | starG : (Char → Bool) → Re
  | starL : (Char → Bool) → Re
  | grp : Re → Re

/-- Match a literal character sequence at the head of the input, returning
the rest on success. -/
def litMatch : List Char → List Char → Option (List Char)
  | [], s => some s
  | _, [] => none
  | c :: cs, d :: ds => if c = d then litMatch cs ds else none

/-- Backtracking matcher in continuation-passing style.  The continuation
receives the unconsumed input; a successful overall match returns the
contents of the capture group when one was traversed.  Greedy operators
try the longest extent first, lazy ones the shortest, and the option tries
the present branch first: Python's backtracking order. -/
def reMatch : Re → List Char → (List Char → Option (Option (List Char))) →
    Option (Option (List Char))
  | .lit cs, s, k =>
      match litMatch cs s with
      | some rest => k rest
      | none => none
  | .seq a b, s, k => reMatch a s (fun rest => reMatch b rest k)
  | .opt a, s, k => (reMatch a s k).orElse (fun _ => k s)
  | .starG p, s, k =>
      let m := (s.takeWhile p).length
      (List.range (m + 1)).findSome? (fun d => k (s.drop (m - d)))
  | .starL p, s, k =>
      let m := (s.takeWhile p).length
      (List.range (m + 1)).findSome? (fun i => k (s.drop i))
  | .grp a, s, k =>
      reMatch a s (fun rest =>
        match k rest with
        | none => none
        | some _ => some (some (s.take (s.length - rest.length))))

/-- Scan for the leftmost start position admitting a match (Python
re.search), returning the capture group of the first match found. -/
def reSearchAux (r : Re) : List Char → Option (List Char)
  | [] =>
      match reMatch r [] (fun _ => some none) with
      | some cap => some (cap.getD [])
      | none => none
  | s@(_ :: rest) =>
      match reMatch r s (fun _ => some none) with
      | some cap => some (cap.getD [])
      | none => reSearchAux r rest

/-- re.search over a String, returning the captured group. -/
def reSearch (r : Re) (text : String) : Option String :=
  (reSearchAux r text.data).map (fun cs => String.mk cs)

/-- Python ASCII whitespace class backslash-s. -/
def isPyWs (c : Char) : Bool :=
  c = ' ' || c = '\t' || c = '\n' || c = '\r' || c = '\x0b' || c = '\x0c'

/-- Character class excluding both braces. -/
def notBrace (c : Char) : Bool :=
  !(c = '{' || c = '}')

/-- The DOTALL any-character class. -/
def anyCh (_ : Char) : Bool := true

/-- Literal regex from a string. -/
def rlit (s : String) : Re := .lit s.data

/-- Sequence a list of regexes. -/
def reSeq (rs : List Re) : Re := rs.foldr Re.seq (.lit [])

/-- The fenced-code-block pattern of anthropic_processor.py: three
backticks, an optional json tag, whitespace, a captured lazy
brace-delimited group, whitespace, three backticks (DOTALL). -/
def fencedJsonRe : Re :=
  reSeq [rlit "```", .opt (rlit "json"), .starG isPyWs,
    .grp (reSeq [.lit ['{'], .starL anyCh, .lit ['}']]),
    .starG isPyWs, rlit "```"]

/-- The raw-object pattern used by the bus and single-contingency variants:
an open brace, non-brace filler, the quoted schema key, non-brace filler, a
lazy bracketed list, non-brace filler, a close brace; group 0 is used, so
the whole pattern is wrapped in the capture group. -/
def rawKeyRe (key : String) : Re :=
  .grp (reSeq [.lit ['{'], .starG notBrace, rlit ("\"" ++ key ++ "\""),
    .starG notBrace, .lit ['['], .starL anyCh, .lit [']'],
    .starG notBrace, .lit ['}']])

/-- The loose raw-object pattern used by the multi-contingency and grid
variants: an open brace, anything, the quoted key, anything, a close brace
(greedy, DOTALL); group 0 is used. -/
def looseKeyRe (key : String) : Re :=
  .grp (reSeq [.lit ['{'], .starG anyCh, rlit ("\"" ++ key ++ "\""),
    .starG anyCh, .lit ['}']])

/-!  The extraction pipeline.  An OracleOutcome describes what the single
HTTP interaction with the completion oracle produced, as observed by the
code after response.raise_for_status()/response.json(): either an HTTP
status error, some other exception from the network stack, or a content
array whose blocks are modelled by the text each yields. -/

/-- Outcome of the oracle HTTP call. -/
inductive OracleOutcome where
  | httpError : Nat → OracleOutcome
  | exn : String → OracleOutcome
  | ok : List String → OracleOutcome

/-- The model of Python's json.loads is passed in explicitly: a total
function returning either the parsed value or the JSONDecodeError text. -/
abbrev Loads := String → Except String Json

/-- The layered parse chain of extract_bus_data (lines 116 to 137),
including the logging accesses bus_data.get and len that run between a
successful parse and the return: exceptions they raise escape the
JSONDecodeError handler, as do parse failures of regex-extracted text. -/
def parseBusResponse (loads : Loads) (text : String) : Except PyExn Json :=
  match loads text with
  | .ok v =>
      match pyDictGet v "buses" (.arr []) with
      | .ok b =>
          match pyLen b with
          | .ok _ => .ok v
          | .error e => .error e
      | .error e => .error e
  | .error _ =>
      match reSearch fencedJsonRe text with
      | some g =>
          match loads g with
          | .ok v =>
              match pyDictGet v "buses" (.arr []) with
              | .ok b =>
                  match pyLen b with
                  | .ok _ => .ok v
                  | .error e => .error e
              | .error e => .error e
          | .error m => .error (.jsonDecode m)
      | none =>
          match reSearch (rawKeyRe "buses") text with
          | some w =>
              match loads w with
              | .ok v => .ok v
              | .error m => .error (.jsonDecode m)
          | none =>
              .ok (.obj [("buses", .arr []),
                ("error", .str "Could not parse response"),
                ("raw_response", .str (text.take 500))])

/-- extract_bus_data as a function of the oracle outcome: HTTP status
errors, other exceptions and the empty content array produce the
error-shaped dicts of lines 139 to 147; otherwise the parse chain runs on
the first content block's text, its escaping exceptions caught by the
outer except Exception handler. -/
def extract_bus_data (loads : Loads) (o : OracleOutcome) : Json :=
  match o with
  | .httpError code =>
      .obj [("buses", .arr []), ("error", .str ("API error: " ++ toString code))]
  | .exn m => .obj [("buses", .arr []), ("error", .str m)]
  | .ok [] => .obj [("buses", .arr []), ("error", .str "Empty response from Anthropic")]
  | .ok (t :: _) =>
      match parseBusResponse loads t with
      | .ok v => v
      | .error e => .obj [("buses", .arr []), ("error", .str e.msg)]

/-- The layered parse chain of extract_contingency_data (lines 256 to
275).  Strategy 1 logs len of the contingencies entry; strategies 2 and 3
return the parsed value without touching it. -/
def parseContingencyResponse (loads : Loads) (text : String) : Except PyExn Json :=
  match loads text with
  | .ok v =>
      match pyDictGet v "contingencies" (.arr []) with
      | .ok b =>
          match pyLen b with
          | .ok _ => .ok v
          | .error e => .error e
      | .error e => .error e
  | .error _ =>
      match reSearch fencedJsonRe text with
      | some g =>
          match loads g with
          | .ok v => .ok v
          | .error m => .error (.jsonDecode m)
      | none =>
          match reSearch (rawKeyRe "contingencies") text with
          | some w =>
              match loads w with
              | .ok v => .ok v
              | .error m => .error (.jsonDecode m)
          | none =>
              .ok (.obj [("contingencies", .arr []),
                ("error", .str "Could not parse response"),
                ("raw_response", .str (text.take 500))])

/-- extract_contingency_data as a function of the oracle outcome. -/
def extract_contingency_data (loads : Loads) (o : OracleOutcome) : Json :=
  match o with
  | .httpError code =>
      .obj [("contingencies", .arr []), ("error", .str ("API error: " ++ toString code))]
  | .exn m => .obj [("contingencies", .arr []), ("error", .str m)]
  | .ok [] => .obj [("contingencies", .arr []), ("error", .str "Empty response from Anthropic")]
  | .ok (t :: _) =>
      match parseContingencyResponse loads t with
      | .ok v => v
      | .error e => .obj [("contingencies", .arr []), ("error", .str e.msg)]

/-- The layered parse chain of extract_contingency_data_multi (lines 403
to 422): same as the single variant except that strategy 3 uses the loose
brace pattern. -/
def parseContingencyMultiResponse (loads : Loads) (text : String) : Except PyExn Json :=
  match loads text with
  | .ok v =>
      match pyDictGet v "contingencies" (.arr []) with
      | .ok b =>
          match pyLen b with
          | .ok _ => .ok v
          | .error e => .error e
      | .error e => .error e
  | .error _ =>
      match reSearch fencedJsonRe text with
      | some g =>
          match loads g with
          | .ok v => .ok v
          | .error m => .error (.jsonDecode m)
      | none =>
          match reSearch (looseKeyRe "contingencies") text with
          | some w =>
              match loads w with
              | .ok v => .ok v
              | .error m => .error (.jsonDecode m)
          | none =>
              .ok (.obj [("contingencies", .arr []),
                ("error", .str "Could not parse response"),
                ("raw_response", .str (text.take 500))])

/-- extract_contingency_data_multi as a function of the oracle outcome
(the bundled screenshots only affect the request, not the parsing). -/
def extract_contingency_data_multi (loads : Loads) (o : OracleOutcome) : Json :=
  match o with
  | .httpError code =>
      .obj [("contingencies", .arr []), ("error", .str ("API error: " ++ toString code))]
  | .exn m => .obj [("contingencies", .arr []), ("error", .str m)]
  | .ok [] => .obj [("contingencies", .arr []), ("error", .str "Empty response from Anthropic")]
  | .ok (t :: _) =>
      match parseContingencyMultiResponse loads t with
      | .ok v => v
      | .error e => .obj [("contingencies", .arr []), ("error", .str e.msg)]

/-- The layered parse chain of extract_grid_data (lines 545 to 563): no
strategy inspects the parsed value (the log lines mention no field), so a
direct parse is returned unchanged; the failure shape maps the grid key to
an empty dict. -/
def parseGridResponse (loads : Loads) (text : String) : Except PyExn Json :=
  match loads text with
  | .ok v => .ok v
  | .error _ =>
      match reSearch fencedJsonRe text with
      | some g =>
          match loads g with
          | .ok v => .ok v
          | .error m => .error (.jsonDecode m)
      | none =>
          match reSearch (looseKeyRe "grid") text with
          | some w =>
              match loads w with
              | .ok v => .ok v
              | .error m => .error (.jsonDecode m)
          | none =>
              .ok (.obj [("grid", .obj []),
                ("error", .str "Could not parse response"),
                ("raw_response", .str (text.take 500))])

/-- extract_grid_data as a function of the oracle outcome. -/
def extract_grid_data (loads : Loads) (o : OracleOutcome) : Json :=
  match o with
  | .httpError code =>
      .obj [("grid", .obj []), ("error", .str ("API error: " ++ toString code))]
  | .exn m => .obj [("grid", .obj []), ("error", .str m)]
  | .ok [] => .obj [("grid", .obj []), ("error", .str "Empty response from Anthropic")]
  | .ok (t :: _) =>
      match parseGridResponse loads t with
      | .ok v => v
      | .error e => .obj [("grid", .obj []), ("error", .str e.msg)]

/-!  The Job Runner services (bus_service.py and contingency_service.py).
Both dataclasses have identical fields; wall-clock timestamps produced by
time.time() are abstracted to 0 (no claim depends on them). -/

/-- LogEntry of bus_service.py / contingency_service.py. -/
structure LogEntry where
  timestamp : Nat := 0
  message : String
  level : String := "info"
deriving DecidableEq

/-- APIResult of bus_service.py / contingency_service.py. -/
structure APIResult where
  status : String
  data : Option Json := none
  error : Option String := none
  logs : List LogEntry := []
  final_screenshot : Option String := none

/-- A PNG file found in the trajectory directory: path, modification time
and (base64-encoded) content. -/
structure TrajFile where
  path : String
  mtime : Nat
  data : String
deriving DecidableEq

/-- The mutable per-service state shared by BusAPIService and
ContingencyAPIService: running flag, log list, last screenshot, trajectory
directory, and whether self.computer has been assigned. -/
structure ServiceState where
  is_running : Bool := false
  logs : List LogEntry := []
  final_screenshot : Option String := none
  trajectory_path : Option String := none
  computer : Bool := false
deriving DecidableEq

/-- The _log helper: appends an entry to the in-memory log list (the
fire-and-forget callback dispatch has no effect on service state). -/
def ServiceState.log (s : ServiceState) (message : String)
    (level : String := "info") : ServiceState :=
  { s with logs := s.logs ++ [{ message := message, level := level }] }

/-- One record of the agent's event stream output, classified by its type
discriminant exactly as the run loops do: message blocks carry the pair of
their text and output_text fields, call outputs carry pairs of type and
image_url, computer calls carry the action type (defaulted to unknown at
the boundary). -/
inductive OutputItem where
  | message : List (String × String) → OutputItem
  | computerCallOutput : List (String × String) → OutputItem
  | computerCall : String → OutputItem
  | other : OutputItem

/-- Behaviour of every external collaborator of one run() invocation:
exceptions the automation engine may raise at each step, the event stream,
the point at which a cooperative stop is observed, the trajectory
directory contents, the oracle outcome, json.loads, and the teardown
disconnect outcome. -/
structure RunEnv where
  initExn : Option String := none
  connectExn : Option String := none
  createAgentExn : Option String := none
  trajectoryPath : String := "traj"
  chunks : List (List OutputItem) := []
  streamExn : Option String := none
  stopDuring : Option Nat := none
  trajectoryExists : Bool := true
  files : List TrajFile := []
  oracle : OracleOutcome := .exn "unused"
  loads : Loads := fun _ => .error "unused"
  disconnectExn : Option String := none

/-- Event-record processing of BusAPIService.run's stream loop (lines 177
to 202): log message texts truncated to 200 chars, remember the latest
screenshot image_url, log action types. -/
def busProcessItem (s : ServiceState) (it : OutputItem) : ServiceState :=
  match it with
  | .message blocks =>
      blocks.foldl (fun s b =>
        let text := if b.1 ≠ "" then b.1 else b.2
        if text ≠ "" then s.log ("Agent: " ++ text.take 200 ++ "...") else s) s
  | .computerCallOutput content =>
      content.foldl (fun s oi =>
        if (oi.1 = "computer_screenshot" || oi.1 = "input_image") && oi.2 ≠ "" then
          { s.log "Screenshot captured" with final_screenshot := some oi.2 }
        else s) s
  | .computerCall actionType => s.log ("Executing: " ++ actionType)
  | .other => s

/-- Event-record processing of ContingencyAPIService.run's stream loop
(lines 177 to 192): as the bus loop but with no screenshot branch. -/
def contProcessItem (s : ServiceState) (it : OutputItem) : ServiceState :=
  match it with
  | .message blocks =>
      blocks.foldl (fun s b =>
        let text := if b.1 ≠ "" then b.1 else b.2
        if text ≠ "" then s.log ("Agent: " ++ text.take 200 ++ "...") else s) s
  | .computerCallOutput _ => s
  | .computerCall actionType => s.log ("Executing: " ++ actionType)
  | .other => s

/-- The chunks actually processed by the stream loop: a stop observed
before chunk n truncates processing there. -/
def processedChunks (env : RunEnv) : List (List OutputItem) :=
  match env.stopDuring with
  | some n => env.chunks.take n
  | none => env.chunks

/-- Whether a mid-stream exception is reached: a stop inside the stream
breaks out before the exception can be raised. -/
def streamExnReached (env : RunEnv) : Option String :=
  match env.stopDuring with
  | some n => if n < env.chunks.length then none else env.streamExn
  | none => env.streamExn

/-- BusAPIService._get_latest_screenshot (lines 62 to 82): empty or absent
trajectory yields None, otherwise the file with maximal modification time
(first maximum, per Python max) is logged and returned as a data URL. -/
def busGetLatestScreenshot (env : RunEnv) (s : ServiceState) :
    Option String × ServiceState :=
  match s.trajectory_path with
  | none => (none, s)
  | some p =>
      if p = "" then (none, s)
      else if !env.trajectoryExists then (none, s)
      else
        match env.files with
        | [] => (none, s)
        | f :: fs =>
            let latest := fs.foldl (fun a x => if x.mtime > a.mtime then x else a) f
            let s := s.log ("Found screenshot: " ++ latest.path)
            (some ("data:image/png;base64," ++ latest.data), s)

/-- Modification-time order on trajectory files. -/
def mtimeLe (a b : TrajFile) : Prop := a.mtime ≤ b.mtime

instance : DecidableRel mtimeLe := fun a b => Nat.decLe a.mtime b.mtime

instance : IsTotal TrajFile mtimeLe := ⟨fun a b => Nat.le_total a.mtime b.mtime⟩

instance : IsTrans TrajFile mtimeLe := ⟨fun _ _ _ => Nat.le_trans⟩

/-- ContingencyAPIService._get_all_screenshots (lines 62 to 84): empty or
absent trajectory yields the empty list, otherwise all files sorted
ascending by modification time, encoded as data URLs, with a count log.
Python's list.sort is modelled by insertion sort (both are correct stable
sorts, identical under the distinct keys the claims assume). -/
def contGetAllScreenshots (env : RunEnv) (s : ServiceState) :
    List String × ServiceState :=
  match s.trajectory_path with
  | none => ([], s)
  | some p =>
      if p = "" then ([], s)
      else if !env.trajectoryExists then ([], s)
      else
        match env.files with
        | [] => ([], s)
        | f :: fs =>
            let sorted := List.insertionSort mtimeLe (f :: fs)
            let result := sorted.map (fun x => "data:image/png;base64," ++ x.data)
            let s := s.log ("Found " ++ toString result.length ++ " screenshots in trajectory")
            (result, s)

/-- The logging access of bus_service.py line 217: len of
bus_data.get with the buses key, which can raise AttributeError or
TypeError into run's outer handler. -/
def busCountLog (v : Json) : Except PyExn Nat :=
  match pyDictGet v "buses" (.arr []) with
  | .ok b => pyLen b
  | .error e => .error e

/-- The logging access of contingency_service.py line 207. -/
def contCountLog (v : Json) : Except PyExn Nat :=
  match pyDictGet v "contingencies" (.arr []) with
  | .ok b => pyLen b
  | .error e => .error e

/-- The try-block of BusAPIService.run (lines 149 to 231), with Python
exceptions as the error channel carrying the state at the raise point. -/
def busRunBody (env : RunEnv) (s : ServiceState) :
    Except (String × ServiceState) (APIResult × ServiceState) :=
  let s := s.log "Connecting to Windows sandbox..."
  match env.initExn with
  | some m => .error (m, s)
  | none =>
    let s := { s with computer := true }
    let s := s.log "Starting sandbox connection..."
    match env.connectExn with
    | some m => .error (m, s)
    | none =>
      let s := s.log "Sandbox connected successfully"
      let s := s.log "Creating CUA agent..."
      let s := { s with trajectory_path := some env.trajectoryPath }
      match env.createAgentExn with
      | some m => .error (m, s)
      | none =>
        let s := s.log ("Trajectory will be saved to: " ++ env.trajectoryPath)
        let s := s.log "Agent initialized, starting task..."
        let s := (processedChunks env).foldl (fun s chunk => chunk.foldl busProcessItem s) s
        match streamExnReached env with
        | some m => .error (m, s)
        | none =>
          let s := s.log "Task completed, reading screenshot from trajectory..."
          let (shot, s) := busGetLatestScreenshot env s
          let s := { s with final_screenshot := shot }
          match shot with
          | some url =>
            let s := s.log "Sending screenshot to Anthropic for analysis..."
            let bus_data := extract_bus_data env.loads env.oracle
            match busCountLog bus_data with
            | .error e => .error (e.msg, s)
            | .ok n =>
              let s := s.log ("Extracted " ++ toString n ++ " buses")
              .ok ({ status := "success", data := some bus_data,
                     logs := s.logs, final_screenshot := some url }, s)
          | none =>
            let msg := "No screenshot found in trajectory: " ++ env.trajectoryPath
            let s := s.log msg "error"
            .ok ({ status := "error", error := some msg, logs := s.logs }, s)

/-- BusAPIService.run (lines 143 to 249): resets the job state, runs the
body, converts any exception into an error APIResult with an error-level
log entry, and in the finally block clears the running flag and attempts
disconnect (logging on success, swallowing teardown errors).  The returned
logs field aliases self.logs in Python, so it reflects entries appended in
the finally block. -/
def busRun (env : RunEnv) (s0 : ServiceState) : APIResult × ServiceState :=
  let s := { s0 with is_running := true, logs := [], final_screenshot := none }
  let (r, s) :=
    match busRunBody env s with
    | .ok (r, s') => (r, s')
    | .error (m, s') =>
        let s'' := s'.log ("Error: " ++ m) "error"
        ({ status := "error", error := some m, logs := s''.logs }, s'')
  let s := { s with is_running := false }
  let s :=
    if s.computer then
      match env.disconnectExn with
      | none => s.log "Disconnected from sandbox"
      | some _ => s
    else s
  ({ r with logs := s.logs }, s)

/-- The try-block of ContingencyAPIService.run (lines 150 to 222). -/
def contRunBody (env : RunEnv) (s : ServiceState) :
    Except (String × ServiceState) (APIResult × ServiceState) :=
  let s := s.log "Connecting to Windows sandbox..."
  match env.initExn with
  | some m => .error (m, s)
  | none =>
    let s := { s with computer := true }
    let s := s.log "Starting sandbox connection..."
    match env.connectExn with
    | some m => .error (m, s)
    | none =>
      let s := s.log "Sandbox connected successfully"
      let s := s.log "Creating CUA agent..."
      let s := { s with trajectory_path := some env.trajectoryPath }
      match env.createAgentExn with
      | some m => .error (m, s)
      | none =>
        let s := s.log ("Trajectory will be saved to: " ++ env.trajectoryPath)
        let s := s.log "Agent initialized, starting task..."
        let s := (processedChunks env).foldl (fun s chunk => chunk.foldl contProcessItem s) s
        match streamExnReached env with
        | some m => .error (m, s)
        | none =>
          let s := s.log "Task completed, reading screenshots from trajectory..."
          let (shots, s) := contGetAllScreenshots env s
          match shots with
          | u :: us =>
            let s := s.log ("Sending " ++ toString (u :: us).length ++
              " screenshots to Anthropic for analysis...")
            let contingency_data := extract_contingency_data_multi env.loads env.oracle
            match contCountLog contingency_data with
            | .error e => .error (e.msg, s)
            | .ok n =>
              let s := s.log ("Extracted " ++ toString n ++ " contingencies")
              .ok ({ status := "success", data := some contingency_data,
                     logs := s.logs, final_screenshot := (u :: us).getLast? }, s)
          | [] =>
            let msg := "No screenshots found in trajectory: " ++ env.trajectoryPath
            let s := s.log msg "error"
            .ok ({ status := "error", error := some msg, logs := s.logs }, s)

/-- ContingencyAPIService.run (lines 144 to 240), wrapping contRunBody
with the same handler and finally block as the bus service. -/
def contRun (env : RunEnv) (s0 : ServiceState) : APIResult × ServiceState :=
  let s := { s0 with is_running := true, logs := [], final_screenshot := none }
  let (r, s) :=
    match contRunBody env s with
    | .ok (r, s') => (r, s')
    | .error (m, s') =>
        let s'' := s'.log ("Error: " ++ m) "error"
        ({ status := "error", error := some m, logs := s''.logs }, s'')
  let s := { s with is_running := false }
  let s :=
    if s.computer then
      match env.disconnectExn with
      | none => s.log "Disconnected from sandbox"
      | some _ => s
    else s
  ({ r with logs := s.logs }, s)

/-!  The WebSocket session coordinator (handler.py) as a step machine: one
inbound command is mapped to an immediate state change, a list of messages
sent synchronously during the command, and at most one launched background
job.  Messages a launched task will send later are not part of the step. -/

/-- CUAAgentService as held by the handler (agent_service.py keeps only
the running flag that the handler's guard reads). -/
structure AgentSvc where
  is_running : Bool := false
deriving DecidableEq

/-- Per-connection handler state (WebSocketHandler.__init__): the held
agent and API services and whether task handles are held. -/
structure HandlerState where
  agentService : Option AgentSvc := none
  apiService : Option ServiceState := none
  agentTask : Bool := false
  apiTask : Bool := false
deriving DecidableEq

/-- Outbound messages the handler sends synchronously (type plus the
StatusPayload fields it carries). -/
inductive OutMsg where
  | status : String → String → OutMsg
  | error : String → String → OutMsg
deriving DecidableEq

/-- Which background job a step launched. -/
inductive LaunchedJob where
  | agent : LaunchedJob
  | api : String → LaunchedJob
deriving DecidableEq

/-- Result of processing one inbound command. -/
structure StepResult where
  state : HandlerState
  sent : List OutMsg
  launched : Option LaunchedJob
deriving DecidableEq

/-- Truthiness of self.agent_service and self.agent_service.is_running. -/
def heldAgentRunning : Option AgentSvc → Bool
  | some a => a.is_running
  | none => false

/-- Truthiness of self.api_service and self.api_service.is_running. -/
def heldApiRunning : Option ServiceState → Bool
  | some s => s.is_running
  | none => false

/-- WebSocketHandler._start_agent (lines 77 to 113): reject with an error
message when the held agent service is running; otherwise construct a
fresh CUAAgentService (is_running initially false) and launch the
streaming task. -/
def startAgent (st : HandlerState) : StepResult :=
  if heldAgentRunning st.agentService then
    { state := st, sent := [.error "error" "Agent is already running"], launched := none }
  else
    { state := { st with agentService := some {}, agentTask := true },
      sent := [], launched := some .agent }

/-- WebSocketHandler._run_api (lines 115 to 218): reject with an error
message when the held API service is running; otherwise send a running
status and launch the API task (which constructs the service itself, so
the held reference is unchanged at step time). -/
def runApi (st : HandlerState) (endpoint : String) : StepResult :=
  if heldApiRunning st.apiService then
    { state := st, sent := [.error "error" "An API is already running"], launched := none }
  else
    { state := { st with apiTask := true },
      sent := [.status "running" ("Starting API: " ++ endpoint)],
      launched := some (.api endpoint) }

/-- WebSocketHandler._stop_agent (lines 220 to 251): call stop() on any
held services (BusAPIService.stop appends a log and clears the flag,
CUAAgentService.stop clears the flag), cancel and await the task handles,
then emit the stopped status message. -/
def stopAgent (st : HandlerState) : StepResult :=
  let ag := st.agentService.map (fun a => { a with is_running := false })
  let ap := st.apiService.map (fun s => { s.log "Stopping task..." with is_running := false })
  { state := { st with agentService := ag, apiService := ap },
    sent := [.status "stopped" "Stopped by user"], launched := none }

/-- WebSocketHandler._handle_message (lines 62 to 75): dispatch on the
type field; unrecognized types fall through to a no-op. -/
def handleMessage (st : HandlerState) (msgType : String) (endpoint : String) : StepResult :=
  if msgType = "start_agent" then startAgent st
  else if msgType = "stop_agent" then stopAgent st
  else if msgType = "run_api" then runApi st endpoint
  else { state := st, sent := [], launched := none }

/-!  The connection registry (manager.py).  A channel is any type with
decidable equality; whether send_json raises on a given channel is an
input of the broadcast. -/

/-- ConnectionManager.broadcast (lines 38 to 50): iterate the registry in
order attempting delivery to each channel, collecting the ones whose send
raised, then disconnect each of those (removal of the first occurrence,
guarded by membership).  Returns the new registry and the list of channels
that received the message, in delivery order. -/
def broadcast {α : Type} [DecidableEq α] (conns : List α) (sendFails : α → Bool) :
    List α × List α :=
  let loop := conns.foldl
    (fun (acc : List α × List α) c =>
      if sendFails c then (acc.1 ++ [c], acc.2) else (acc.1, acc.2 ++ [c]))
    ([], [])
  (loop.1.foldl (fun cs c => cs.erase c) conns, loop.2)

/-- Fragment of Python json.loads used at concrete inputs below: the
document consisting of the two characters 4 and 2 parses to the integer
42 (as Python's json.loads returns), anything else is treated as a decode
error (true of every other string actually passed to it here). -/
def loadsScalar : Loads := fun s =>
  if s = "42" then .ok (.num 42) else .error "Expecting value"

/-- A concrete session state in which both held runners are active, used
to exercise the single-flight guards. -/
def bothRunningState : HandlerState :=
  { agentService := some { is_running := true },
    apiService := some { is_running := true } }

/-- A concrete trajectory directory of three files with distinct
modification times. -/
def threeFiles : List TrajFile :=
  [TrajFile.mk "a.png" 5 "A", TrajFile.mk "b.png" 9 "B", TrajFile.mk "c.png" 2 "C"]

/-- A concrete collaborator environment holding the three files. -/
def threeFilesEnv : RunEnv := { files := threeFiles }

/-- A concrete service state with a trajectory directory assigned. -/
def trajState : ServiceState := { trajectory_path := some "traj" }

/-!  Theorems.  Each claim of the specification audit is settled by one
theorem below; helper lemmas precede the claim theorems that use them. -/

/-- Helper: the accumulator pass of broadcast splits the registry into the
failing and the delivered channels, in order. -/
theorem broadcast_foldl_split {α : Type} (f : α → Bool) :
    ∀ (conns d l : List α),
      conns.foldl
        (fun (acc : List α × List α) c =>
          if f c then (acc.1 ++ [c], acc.2) else (acc.1, acc.2 ++ [c])) (d, l) =
      (d ++ conns.filter f, l ++ conns.filter (fun c => !f c)) := by
  intro conns
  induction conns with
  | nil => intro d l; simp
  | cons x xs ih =>
      intro d l
      by_cases h : f x <;> simp [h, ih, List.filter_cons]

/-- Helper: the left fold of the Python max with a key function lands on a
member of the scanned list. -/
theorem foldMax_mem : ∀ (fs : List TrajFile) (f : TrajFile),
    fs.foldl (fun a x => if x.mtime > a.mtime then x else a) f ∈ f :: fs := by
  intro fs
  induction fs with
  | nil => intro f; simp
  | cons x xs ih =>
      intro f
      simp only [List.foldl_cons]
      rcases List.mem_cons.mp (ih (if x.mtime > f.mtime then x else f)) with h | h
      · by_cases hx : x.mtime > f.mtime
        · rw [if_pos hx] at h ⊢
          rw [h]; simp
        · rw [if_neg hx] at h ⊢
          rw [h]; simp
      · simp [List.mem_cons.mpr (Or.inr h)]

/-- Helper: the left fold of the Python max dominates every member. -/
theorem foldMax_ge : ∀ (fs : List TrajFile) (f g : TrajFile), g ∈ f :: fs →
    g.mtime ≤ (fs.foldl (fun a x => if x.mtime > a.mtime then x else a) f).mtime := by
  intro fs
  induction fs with
  | nil =>
      intro f g hg
      simp only [List.mem_singleton] at hg
      simp [hg]
  | cons x xs ih =>
      intro f g hg
      simp only [List.foldl_cons]
      have step : f.mtime ≤ (if x.mtime > f.mtime then x else f).mtime ∧
          x.mtime ≤ (if x.mtime > f.mtime then x else f).mtime := by
        by_cases hx : x.mtime > f.mtime <;> simp [hx] <;> omega
      have base : (if x.mtime > f.mtime then x else f).mtime ≤
          (xs.foldl (fun a x => if x.mtime > a.mtime then x else a)
            (if x.mtime > f.mtime then x else f)).mtime :=
        ih _ _ (List.mem_cons_self _ _)
      rcases List.mem_cons.mp hg with h | h
      · rw [h]; exact le_trans step.1 base
      · rcases List.mem_cons.mp h with h | h
        · rw [h]; exact le_trans step.2 base
        · exact ih _ _ (List.mem_cons_of_mem _ h)

/-- Helper: a left fold preserves any reflexive transitive relation whose
steps it respects. -/
theorem foldl_rel {α β : Type} (R : α → α → Prop) (g : α → β → α)
    (hrefl : ∀ a, R a a) (htrans : ∀ a b c, R a b → R b c → R a c)
    (hstep : ∀ a x, R a (g a x)) :
    ∀ (l : List β) (a : α), R a (l.foldl g a) := by
  intro l
  induction l with
  | nil => intro a; exact hrefl a
  | cons x xs ih => intro a; exact htrans _ _ _ (hstep a x) (ih (g a x))

/-- The event-stream loops only append logs and update the screenshot:
trajectory path, computer handle and running flag survive. -/
def sameCore (s s' : ServiceState) : Prop :=
  s'.trajectory_path = s.trajectory_path ∧ s'.computer = s.computer ∧
  s'.is_running = s.is_running

/-- Helper: single-item processing of the bus loop preserves the core. -/
theorem busProcessItem_core (s : ServiceState) (it : OutputItem) :
    sameCore s (busProcessItem s it) := by
  cases it with
  | message blocks =>
      refine foldl_rel sameCore _ (fun a => ⟨rfl, rfl, rfl⟩)
        (fun a b c h1 h2 => ⟨h2.1.trans h1.1, h2.2.1.trans h1.2.1, h2.2.2.trans h1.2.2⟩)
        (fun a b => ?_) blocks s
      simp only []
      split <;> (try split) <;> exact ⟨rfl, rfl, rfl⟩
  | computerCallOutput content =>
      refine foldl_rel sameCore _ (fun a => ⟨rfl, rfl, rfl⟩)
        (fun a b c h1 h2 => ⟨h2.1.trans h1.1, h2.2.1.trans h1.2.1, h2.2.2.trans h1.2.2⟩)
        (fun a b => ?_) content s
      simp only []
      split <;> (try split) <;> exact ⟨rfl, rfl, rfl⟩
  | computerCall actionType => exact ⟨rfl, rfl, rfl⟩
  | other => exact ⟨rfl, rfl, rfl⟩

/-- Helper: single-item processing of the contingency loop preserves the
core fields. -/
theorem contProcessItem_core (s : ServiceState) (it : OutputItem) :
    sameCore s (contProcessItem s it) := by
  cases it with
  | message blocks =>
      refine foldl_rel sameCore _ (fun a => ⟨rfl, rfl, rfl⟩)
        (fun a b c h1 h2 => ⟨h2.1.trans h1.1, h2.2.1.trans h1.2.1, h2.2.2.trans h1.2.2⟩)
        (fun a b => ?_) blocks s
      simp only []
      split <;> (try split) <;> exact ⟨rfl, rfl, rfl⟩
  | computerCallOutput content => exact ⟨rfl, rfl, rfl⟩
  | computerCall actionType => exact ⟨rfl, rfl, rfl⟩
  | other => exact ⟨rfl, rfl, rfl⟩

/-- Helper: the whole bus stream loop preserves the core fields. -/
theorem busChunksFold_core (chunks : List (List OutputItem)) (s : ServiceState) :
    sameCore s (chunks.foldl (fun s chunk => chunk.foldl busProcessItem s) s) :=
  foldl_rel sameCore _ (fun a => ⟨rfl, rfl, rfl⟩)
    (fun a b c h1 h2 => ⟨h2.1.trans h1.1, h2.2.1.trans h1.2.1, h2.2.2.trans h1.2.2⟩)
    (fun a chunk => foldl_rel sameCore _ (fun a => ⟨rfl, rfl, rfl⟩)
      (fun a b c h1 h2 => ⟨h2.1.trans h1.1, h2.2.1.trans h1.2.1, h2.2.2.trans h1.2.2⟩)
      busProcessItem_core chunk a) chunks s

/-- Helper: trajectory path after the bus stream loop, as a rewrite rule. -/
theorem busChunksFold_trajectory_path (chunks : List (List OutputItem)) (s : ServiceState) :
    (chunks.foldl (fun s chunk => chunk.foldl busProcessItem s) s).trajectory_path =
      s.trajectory_path :=
  (busChunksFold_core chunks s).1

/-- Helper: computer handle after the bus stream loop. -/
theorem busChunksFold_computer (chunks : List (List OutputItem)) (s : ServiceState) :
    (chunks.foldl (fun s chunk => chunk.foldl busProcessItem s) s).computer =
      s.computer :=
  (busChunksFold_core chunks s).2.1

/-- Helper: the whole contingency stream loop preserves the core fields. -/
theorem contChunksFold_core (chunks : List (List OutputItem)) (s : ServiceState) :
    sameCore s (chunks.foldl (fun s chunk => chunk.foldl contProcessItem s) s) :=
  foldl_rel sameCore _ (fun a => ⟨rfl, rfl, rfl⟩)
    (fun a b c h1 h2 => ⟨h2.1.trans h1.1, h2.2.1.trans h1.2.1, h2.2.2.trans h1.2.2⟩)
    (fun a chunk => foldl_rel sameCore _ (fun a => ⟨rfl, rfl, rfl⟩)
      (fun a b c h1 h2 => ⟨h2.1.trans h1.1, h2.2.1.trans h1.2.1, h2.2.2.trans h1.2.2⟩)
      contProcessItem_core chunk a) chunks s

/-- Helper: trajectory path after the contingency stream loop. -/
theorem contChunksFold_trajectory_path (chunks : List (List OutputItem)) (s : ServiceState) :
    (chunks.foldl (fun s chunk => chunk.foldl contProcessItem s) s).trajectory_path =
      s.trajectory_path :=
  (contChunksFold_core chunks s).1

/-- Helper: computer handle after the contingency stream loop. -/
theorem contChunksFold_computer (chunks : List (List OutputItem)) (s : ServiceState) :
    (chunks.foldl (fun s chunk => chunk.foldl contProcessItem s) s).computer =
      s.computer :=
  (contChunksFold_core chunks s).2.1

/-- C1: the claim says every extraction variant returns a dictionary-shaped
result for every oracle response text.  The grid variant refutes this: on
the valid non-object JSON response 42 its direct-parse strategy returns
json.loads' result without inspecting it, so the caller receives the bare
integer 42, contradicting the function's own docstring and Dict return
annotation.  This theorem evaluates the embedded code at that input. -/
theorem extract_grid_data_nondict_on_scalar :
    extract_grid_data loadsScalar (.ok ["42"]) = Json.num 42 ∧
    Json.isObj (extract_grid_data loadsScalar (.ok ["42"])) = false ∧
    Json.isObj (extract_bus_data loadsScalar (.ok ["42"])) = true := by
  refine ⟨rfl, rfl, rfl⟩

/-- C2: when the direct parse fails and neither the fenced-block pattern
nor the raw brace pattern with the buses key matches, extract_bus_data
returns exactly the failure shape: buses mapped to the empty list, the
fixed error text, and the first 500 characters of the raw response. -/
theorem extract_bus_data_fallback_shape (loads : Loads) (text e : String)
    (hne : text ≠ "") (h1 : loads text = .error e)
    (h2 : reSearch fencedJsonRe text = none)
    (h3 : reSearch (rawKeyRe "buses") text = none) :
    extract_bus_data loads (.ok [text]) =
      .obj [("buses", .arr []),
            ("error", .str "Could not parse response"),
            ("raw_response", .str (text.take 500))] := by
  simp [extract_bus_data, parseBusResponse, h1, h2, h3]

/-- Witness for C2 at a concrete unparseable response. -/
theorem extract_bus_data_fallback_shape_witness :
    extract_bus_data (fun _ => .error "Expecting value") (.ok ["not json at all"]) =
      .obj [("buses", .arr []),
            ("error", .str "Could not parse response"),
            ("raw_response", .str (("not json at all" : String).take 500))] :=
  extract_bus_data_fallback_shape (fun _ => .error "Expecting value")
    "not json at all" "Expecting value" (by decide) rfl (by rfl) (by rfl)

/-- C3: while the held runner's is_running flag is true, a second start
command (start agent, and likewise run-api) is rejected with an explicit
already-running error message, the session state is unchanged and no
second job runner is constructed or launched; conversely a job is only
ever launched when no held runner is running, so a runner never has two
overlapping run invocations started on it. -/
theorem single_flight_guard :
    (∀ st : HandlerState, heldAgentRunning st.agentService = true →
      startAgent st = ⟨st, [.error "error" "Agent is already running"], none⟩) ∧
    (∀ (st : HandlerState) (ep : String), heldApiRunning st.apiService = true →
      runApi st ep = ⟨st, [.error "error" "An API is already running"], none⟩) ∧
    (∀ st : HandlerState, (startAgent st).launched.isSome = true →
      heldAgentRunning st.agentService = false) ∧
    (∀ (st : HandlerState) (ep : String), (runApi st ep).launched.isSome = true →
      heldApiRunning st.apiService = false) := by
  refine ⟨?_, ?_, ?_, ?_⟩
  · intro st h; simp [startAgent, h]
  · intro st ep h; simp [runApi, h]
  · intro st h
    by_cases hr : heldAgentRunning st.agentService
    · simp [startAgent, hr] at h
    · simpa using hr
  · intro st ep h
    by_cases hr : heldApiRunning st.apiService
    · simp [runApi, hr] at h
    · simpa using hr

/-- Witness for C3 at a concrete session with both runners active. -/
theorem single_flight_guard_witness :
    startAgent bothRunningState =
      ⟨bothRunningState, [.error "error" "Agent is already running"], none⟩ ∧
    runApi bothRunningState "buses" =
      ⟨bothRunningState, [.error "error" "An API is already running"], none⟩ :=
  ⟨single_flight_guard.1 bothRunningState rfl,
   single_flight_guard.2.1 bothRunningState "buses" rfl⟩

/-- C9: broadcast attempts delivery to every registered channel; a failing
channel does not prevent delivery to the others (every non-failing channel
is in the delivered list), every failing channel has been removed from the
registry by the end of the broadcast, and no healthy channel is removed. -/
theorem broadcast_isolation {α : Type} [DecidableEq α]
    (conns : List α) (sendFails : α → Bool) (hnd : conns.Nodup) :
    (∀ c ∈ conns, sendFails c = false → c ∈ (broadcast conns sendFails).2) ∧
    (∀ c ∈ conns, sendFails c = true → c ∉ (broadcast conns sendFails).1) ∧
    (∀ c ∈ conns, sendFails c = false → c ∈ (broadcast conns sendFails).1) := by
  have hb : broadcast conns sendFails =
      ((conns.filter sendFails).foldl (fun cs c => cs.erase c) conns,
        conns.filter (fun c => !sendFails c)) := by
    simp [broadcast, broadcast_foldl_split]
  have hdiff : (conns.filter sendFails).foldl (fun cs c => cs.erase c) conns =
      conns.diff (conns.filter sendFails) := by
    rw [List.diff_eq_foldl]
  refine ⟨?_, ?_, ?_⟩
  · intro c hc hf
    rw [hb]
    simpa [List.mem_filter, hf] using hc
  · intro c hc hf
    rw [hb]
    simp only [hdiff]
    rw [hnd.mem_diff_iff]
    simp [List.mem_filter, hc, hf]
  · intro c hc hf
    rw [hb]
    simp only [hdiff]
    rw [hnd.mem_diff_iff]
    simp [List.mem_filter, hc, hf]

/-- Witness for C9: three channels, the middle one throwing on send; the
other two receive the message and the failing one leaves the registry. -/
theorem broadcast_isolation_witness :
    (∀ c ∈ [0, 1, 2], (fun c => decide (c = 1)) c = false →
      c ∈ (broadcast [0, 1, 2] (fun c => decide (c = 1))).2) ∧
    (∀ c ∈ [0, 1, 2], (fun c => decide (c = 1)) c = true →
      c ∉ (broadcast [0, 1, 2] (fun c => decide (c = 1))).1) ∧
    (∀ c ∈ [0, 1, 2], (fun c => decide (c = 1)) c = false →
      c ∈ (broadcast [0, 1, 2] (fun c => decide (c = 1))).1) :=
  broadcast_isolation [0, 1, 2] (fun c => decide (c = 1)) (by decide)

/-- C10: an inbound message whose type is not one of the three recognized
commands produces no response message, launches no job, and leaves the
whole session state unchanged. -/
theorem handle_message_unknown_noop (st : HandlerState) (t ep : String)
    (h1 : t ≠ "start_agent") (h2 : t ≠ "stop_agent") (h3 : t ≠ "run_api") :
    handleMessage st t ep = ⟨st, [], none⟩ := by
  simp [handleMessage, h1, h2, h3]

/-- Witness for C10 at a concrete unrecognized message type. -/
theorem handle_message_unknown_noop_witness :
    handleMessage bothRunningState "ping" "" = ⟨bothRunningState, [], none⟩ :=
  handle_message_unknown_noop bothRunningState "ping" ""
    (by decide) (by decide) (by decide)

/-- C8: for a non-empty trajectory with pairwise distinct modification
times, single-artifact selection returns the data URL of the file with the
maximum modification time, and multi-artifact selection returns the data
URLs of all files in ascending modification-time order. -/
theorem artifact_selection :
    (∀ (env : RunEnv) (s : ServiceState) (p : String),
      s.trajectory_path = some p → p ≠ "" → env.trajectoryExists = true →
      env.files ≠ [] →
      List.Pairwise (fun a b : TrajFile => a.mtime ≠ b.mtime) env.files →
      ∃ f ∈ env.files,
        (busGetLatestScreenshot env s).1 = some ("data:image/png;base64," ++ f.data) ∧
        ∀ g ∈ env.files, g.mtime ≤ f.mtime) ∧
    (∀ (env : RunEnv) (s : ServiceState) (p : String),
      s.trajectory_path = some p → p ≠ "" → env.trajectoryExists = true →
      env.files ≠ [] →
      List.Pairwise (fun a b : TrajFile => a.mtime ≠ b.mtime) env.files →
      ∃ ordered : List TrajFile, ordered.Perm env.files ∧
        List.Sorted mtimeLe ordered ∧
        (contGetAllScreenshots env s).1 =
          ordered.map (fun x => "data:image/png;base64," ++ x.data)) := by
  constructor
  · intro env s p hp hpne hex hne _
    obtain ⟨f, fs, hf⟩ := List.exists_cons_of_ne_nil hne
    refine ⟨fs.foldl (fun a x => if x.mtime > a.mtime then x else a) f, ?_, ?_, ?_⟩
    · rw [hf]; exact foldMax_mem fs f
    · simp [busGetLatestScreenshot, hp, hpne, hex, hf]
    · intro g hg
      rw [hf] at hg
      exact foldMax_ge fs f g hg
  · intro env s p hp hpne hex hne _
    obtain ⟨f, fs, hf⟩ := List.exists_cons_of_ne_nil hne
    refine ⟨List.insertionSort mtimeLe (f :: fs), ?_, ?_, ?_⟩
    · rw [hf]; exact List.perm_insertionSort mtimeLe (f :: fs)
    · exact List.sorted_insertionSort mtimeLe (f :: fs)
    · simp [contGetAllScreenshots, hp, hpne, hex, hf]

/-- Witness for C8 at a concrete trajectory of three files with distinct
modification times. -/
theorem artifact_selection_witness :
    (∃ f ∈ threeFilesEnv.files,
      (busGetLatestScreenshot threeFilesEnv trajState).1 =
        some ("data:image/png;base64," ++ f.data) ∧
      ∀ g ∈ threeFilesEnv.files, g.mtime ≤ f.mtime) ∧
    (∃ ordered : List TrajFile, ordered.Perm threeFilesEnv.files ∧
      List.Sorted mtimeLe ordered ∧
      (contGetAllScreenshots threeFilesEnv trajState).1 =
        ordered.map (fun x => "data:image/png;base64," ++ x.data)) :=
  ⟨artifact_selection.1 threeFilesEnv trajState "traj" rfl (by decide) rfl
      (by decide) (by decide),
   artifact_selection.2 threeFilesEnv trajState "traj" rfl (by decide) rfl
      (by decide) (by decide)⟩

/-- C5: on every exit path of run (success, terminal error, or a stop
observed mid-stream) the running flag is false once run returns, for both
job runner variants; and the stop command always emits exactly one status
message with status stopped while clearing the running flag of any held
runner. -/
theorem run_clears_flag_and_stop_emits :
    (∀ (env : RunEnv) (s : ServiceState), (busRun env s).2.is_running = false) ∧
    (∀ (env : RunEnv) (s : ServiceState), (contRun env s).2.is_running = false) ∧
    (∀ st : HandlerState,
      (stopAgent st).sent = [.status "stopped" "Stopped by user"] ∧
      heldAgentRunning (stopAgent st).state.agentService = false ∧
      heldApiRunning (stopAgent st).state.apiService = false) := by
  refine ⟨?_, ?_, ?_⟩
  · intro env s
    simp only [busRun]
    rcases busRunBody env
        { s with is_running := true, logs := [], final_screenshot := none } with
      ⟨m, s'⟩ | ⟨r, s'⟩ <;>
      · simp only []
        split <;> (try split) <;> simp [ServiceState.log]
  · intro env s
    simp only [contRun]
    rcases contRunBody env
        { s with is_running := true, logs := [], final_screenshot := none } with
      ⟨m, s'⟩ | ⟨r, s'⟩ <;>
      · simp only []
        split <;> (try split) <;> simp [ServiceState.log]
  · intro st
    refine ⟨rfl, ?_, ?_⟩
    · cases h : st.agentService <;> simp [stopAgent, heldAgentRunning, h]
    · cases h : st.apiService <;> simp [stopAgent, heldApiRunning, h]

/-- C6: when the automation run completes and produced at least one
artifact, the job-level result has status success even when the oracle
call failed softly: for an HTTP failure and for a parse failure alike, the
error is carried inside the structured data value (buses mapped to the
empty list plus an error field) while the job-level error field stays
empty. -/
theorem soft_oracle_failure_still_success :
    (∀ (env : RunEnv) (s : ServiceState) (code : Nat),
      env.initExn = none → env.connectExn = none → env.createAgentExn = none →
      env.stopDuring = none → env.streamExn = none →
      env.trajectoryExists = true → env.trajectoryPath ≠ "" → env.files ≠ [] →
      env.oracle = .httpError code →
      (busRun env s).1.status = "success" ∧
      (busRun env s).1.data = some (.obj [("buses", .arr []),
        ("error", .str ("API error: " ++ toString code))]) ∧
      (busRun env s).1.error = none) ∧
    (∀ (env : RunEnv) (s : ServiceState) (t e : String),
      env.initExn = none → env.connectExn = none → env.createAgentExn = none →
      env.stopDuring = none → env.streamExn = none →
      env.trajectoryExists = true → env.trajectoryPath ≠ "" → env.files ≠ [] →
      env.oracle = .ok [t] → env.loads t = .error e →
      reSearch fencedJsonRe t = none → reSearch (rawKeyRe "buses") t = none →
      (busRun env s).1.status = "success" ∧
      (busRun env s).1.data = some (.obj [("buses", .arr []),
        ("error", .str "Could not parse response"),
        ("raw_response", .str (t.take 500))]) ∧
      (busRun env s).1.error = none) := by
  constructor
  · intro env s code h1 h2 h3 h4 h5 h6 h7 h8 h9
    obtain ⟨f, fs, hf⟩ := List.exists_cons_of_ne_nil h8
    simp [busRun, busRunBody, streamExnReached, processedChunks,
      busGetLatestScreenshot, busCountLog, extract_bus_data, pyDictGet, pyLen,
      busChunksFold_trajectory_path, busChunksFold_computer,
      h1, h2, h3, h4, h5, h6, h7, h9, hf, ServiceState.log]
  · intro env s t e h1 h2 h3 h4 h5 h6 h7 h8 h9 hl hr1 hr2
    obtain ⟨f, fs, hf⟩ := List.exists_cons_of_ne_nil h8
    simp [busRun, busRunBody, streamExnReached, processedChunks,
      busGetLatestScreenshot, busCountLog, extract_bus_data, parseBusResponse,
      pyDictGet, pyLen, busChunksFold_trajectory_path, busChunksFold_computer,
      h1, h2, h3, h4, h5, h6, h7, h9, hl, hr1, hr2, hf, ServiceState.log]

/-- Witness for C6: a happy-path environment whose oracle call fails with
HTTP 500 still yields a job-level success carrying the soft error. -/
theorem soft_oracle_failure_still_success_witness :
    (busRun { threeFilesEnv with oracle := .httpError 500 } trajState).1.status =
      "success" ∧
    (busRun { threeFilesEnv with oracle := .httpError 500 } trajState).1.data =
      some (.obj [("buses", .arr []), ("error", .str ("API error: " ++ toString 500))]) ∧
    (busRun { threeFilesEnv with oracle := .httpError 500 } trajState).1.error =
      none :=
  soft_oracle_failure_still_success.1 { threeFilesEnv with oracle := .httpError 500 }
    trajState 500 rfl rfl rfl rfl rfl rfl (by decide) (by decide) rfl

/-- C7: when the trajectory directory holds zero PNG files after the agent
stream ends, both run variants return (rather than raise) a result with
status error whose error message begins with the words No screenshot, and
the oracle is never consulted: the entire outcome of run is unchanged
under every possible oracle behaviour. -/
theorem no_screenshot_terminal_error :
    ∀ (env : RunEnv) (s : ServiceState),
      env.initExn = none → env.connectExn = none → env.createAgentExn = none →
      env.stopDuring = none → env.streamExn = none →
      env.trajectoryExists = true → env.files = [] →
      ((busRun env s).1.status = "error" ∧
       (∃ t, (busRun env s).1.error = some ("No screenshot" ++ t)) ∧
       (∀ o : OracleOutcome, busRun { env with oracle := o } s = busRun env s)) ∧
      ((contRun env s).1.status = "error" ∧
       (∃ t, (contRun env s).1.error = some ("No screenshot" ++ t)) ∧
       (∀ o : OracleOutcome, contRun { env with oracle := o } s = contRun env s)) := by
  intro env s h1 h2 h3 h4 h5 h6 h7
  refine ⟨⟨?_, ⟨" found in trajectory: " ++ env.trajectoryPath, ?_⟩, ?_⟩,
          ⟨?_, ⟨"s found in trajectory: " ++ env.trajectoryPath, ?_⟩, ?_⟩⟩ <;>
    (simp [busRun, busRunBody, contRun, contRunBody, streamExnReached,
       processedChunks, busGetLatestScreenshot, contGetAllScreenshots,
       busChunksFold_trajectory_path, busChunksFold_computer,
       contChunksFold_trajectory_path, contChunksFold_computer,
       h1, h2, h3, h4, h5, h6, h7, ServiceState.log]
     try rfl)

/-- Witness for C7: a happy-path environment with an empty trajectory. -/
theorem no_screenshot_terminal_error_witness :
    ((busRun { } trajState).1.status = "error" ∧
     (∃ t, (busRun { } trajState).1.error = some ("No screenshot" ++ t)) ∧
     (∀ o : OracleOutcome, busRun { oracle := o } trajState = busRun { } trajState)) ∧
    ((contRun { } trajState).1.status = "error" ∧
     (∃ t, (contRun { } trajState).1.error = some ("No screenshot" ++ t)) ∧
     (∀ o : OracleOutcome, contRun { oracle := o } trajState = contRun { } trajState)) :=
  no_screenshot_terminal_error { } trajState rfl rfl rfl rfl rfl rfl rfl

/-- C4: an exception raised inside run at any step — connecting (the
computer constructor or computer.run), configuring the agent, consuming
the event stream, or the extraction layer's logging access — never
propagates: run returns a result with status error, the exception message
as the error field, and the accumulated logs including an error-level
entry recording the message.  This holds for both job runner variants
(totality of the embedded run functions models that no exception
escapes). -/
theorem run_catches_exceptions :
    (∀ (env : RunEnv) (s : ServiceState) (m : String),
      env.initExn = some m →
      (busRun env s).1.status = "error" ∧ (busRun env s).1.error = some m ∧
      ({ message := "Error: " ++ m, level := "error" } : LogEntry) ∈ (busRun env s).1.logs) ∧
    (∀ (env : RunEnv) (s : ServiceState) (m : String),
      env.initExn = none → env.connectExn = some m →
      (busRun env s).1.status = "error" ∧ (busRun env s).1.error = some m ∧
      ({ message := "Error: " ++ m, level := "error" } : LogEntry) ∈ (busRun env s).1.logs) ∧
    (∀ (env : RunEnv) (s : ServiceState) (m : String),
      env.initExn = none → env.connectExn = none → env.createAgentExn = some m →
      (busRun env s).1.status = "error" ∧ (busRun env s).1.error = some m ∧
      ({ message := "Error: " ++ m, level := "error" } : LogEntry) ∈ (busRun env s).1.logs) ∧
    (∀ (env : RunEnv) (s : ServiceState) (m : String),
      env.initExn = none → env.connectExn = none → env.createAgentExn = none →
      env.stopDuring = none → env.streamExn = some m →
      (busRun env s).1.status = "error" ∧ (busRun env s).1.error = some m ∧
      ({ message := "Error: " ++ m, level := "error" } : LogEntry) ∈ (busRun env s).1.logs) ∧
    (∀ (env : RunEnv) (s : ServiceState) (pe : PyExn),
      env.initExn = none → env.connectExn = none → env.createAgentExn = none →
      env.stopDuring = none → env.streamExn = none →
      env.trajectoryExists = true → env.trajectoryPath ≠ "" → env.files ≠ [] →
      busCountLog (extract_bus_data env.loads env.oracle) = .error pe →
      (busRun env s).1.status = "error" ∧ (busRun env s).1.error = some pe.msg ∧
      ({ message := "Error: " ++ pe.msg, level := "error" } : LogEntry) ∈ (busRun env s).1.logs) ∧
    (∀ (env : RunEnv) (s : ServiceState) (m : String),
      env.initExn = some m →
      (contRun env s).1.status = "error" ∧ (contRun env s).1.error = some m ∧
      ({ message := "Error: " ++ m, level := "error" } : LogEntry) ∈ (contRun env s).1.logs) ∧
    (∀ (env : RunEnv) (s : ServiceState) (m : String),
      env.initExn = none → env.connectExn = none → env.createAgentExn = none →
      env.stopDuring = none → env.streamExn = some m →
      (contRun env s).1.status = "error" ∧ (contRun env s).1.error = some m ∧
      ({ message := "Error: " ++ m, level := "error" } : LogEntry) ∈ (contRun env s).1.logs) ∧
    (∀ (env : RunEnv) (s : ServiceState) (pe : PyExn),
      env.initExn = none → env.connectExn = none → env.createAgentExn = none →
      env.stopDuring = none → env.streamExn = none →
      env.trajectoryExists = true → env.trajectoryPath ≠ "" → env.files ≠ [] →
      contCountLog (extract_contingency_data_multi env.loads env.oracle) = .error pe →
      (contRun env s).1.status = "error" ∧ (contRun env s).1.error = some pe.msg ∧
      ({ message := "Error: " ++ pe.msg, level := "error" } : LogEntry) ∈ (contRun env s).1.logs) := by
  refine ⟨?_, ?_, ?_, ?_, ?_, ?_, ?_, ?_⟩
  · intro env s m h1
    refine ⟨?_, ?_, ?_⟩ <;>
      simp [busRun, busRunBody, h1, ServiceState.log] <;>
      split <;> (try split) <;> simp [ServiceState.log]
  · intro env s m h1 h2
    refine ⟨?_, ?_, ?_⟩ <;>
      simp [busRun, busRunBody, h1, h2, ServiceState.log] <;>
      split <;> (try split) <;> simp [ServiceState.log]
  · intro env s m h1 h2 h3
    refine ⟨?_, ?_, ?_⟩ <;>
      simp [busRun, busRunBody, h1, h2, h3, ServiceState.log] <;>
      split <;> (try split) <;> simp [ServiceState.log]
  · intro env s m h1 h2 h3 h4 h5
    refine ⟨?_, ?_, ?_⟩ <;>
      simp [busRun, busRunBody, streamExnReached, processedChunks,
        busChunksFold_computer, h1, h2, h3, h4, h5, ServiceState.log] <;>
      split <;> (try split) <;> simp [ServiceState.log]
  · intro env s pe h1 h2 h3 h4 h5 h6 h7 h8 h9
    obtain ⟨f, fs, hf⟩ := List.exists_cons_of_ne_nil h8
    refine ⟨?_, ?_, ?_⟩ <;>
      simp [busRun, busRunBody, streamExnReached, processedChunks,
        busGetLatestScreenshot, busChunksFold_trajectory_path,
        busChunksFold_computer, h1, h2, h3, h4, h5, h6, h7, h9, hf,
        ServiceState.log] <;>
      split <;> (try split) <;> simp [ServiceState.log]
  · intro env s m h1
    refine ⟨?_, ?_, ?_⟩ <;>
      simp [contRun, contRunBody, h1, ServiceState.log] <;>
      split <;> (try split) <;> simp [ServiceState.log]
  · intro env s m h1 h2 h3 h4 h5
    refine ⟨?_, ?_, ?_⟩ <;>
      simp [contRun, contRunBody, streamExnReached, processedChunks,
        contChunksFold_computer, h1, h2, h3, h4, h5, ServiceState.log] <;>
      split <;> (try split) <;> simp [ServiceState.log]
  · intro env s pe h1 h2 h3 h4 h5 h6 h7 h8 h9
    obtain ⟨f, fs, hf⟩ := List.exists_cons_of_ne_nil h8
    rcases hs : List.orderedInsert mtimeLe f (List.insertionSort mtimeLe fs)
      with _ | ⟨u, us⟩
    · have hperm := List.perm_orderedInsert mtimeLe f (List.insertionSort mtimeLe fs)
      rw [hs] at hperm
      simpa using hperm.length_eq
    · refine ⟨?_, ?_, ?_⟩ <;>
        simp [contRun, contRunBody, streamExnReached, processedChunks,
          contGetAllScreenshots, contChunksFold_trajectory_path,
          contChunksFold_computer, h1, h2, h3, h4, h5, h6, h7, h9, hf, hs,
          ServiceState.log] <;>
        split <;> (try split) <;> simp [ServiceState.log]

/-- Witness for C4: a concrete run whose connection step raises. -/
theorem run_catches_exceptions_witness :
    (busRun { initExn := some "sandbox unreachable" } trajState).1.status = "error" ∧
    (busRun { initExn := some "sandbox unreachable" } trajState).1.error =
      some "sandbox unreachable" ∧
    ({ message := "Error: " ++ "sandbox unreachable", level := "error" } : LogEntry) ∈
      (busRun { initExn := some "sandbox unreachable" } trajState).1.logs :=
  run_catches_exceptions.1 { initExn := some "sandbox unreachable" } trajState
    "sandbox unreachable" rfl

end PWCUA
